import Mathlib

/-
Verification development for the MLops scoring repository
(src/preprocess.py and src/predict.py), as a shallow embedding.

Data model: a pandas DataFrame is an ordered association list of named
columns; a cell is a number (idealised as a rational), a string, or
null/NaN.  Library behaviour that is not part of the repository
(pandas string-to-number parsing, timestamp parsing, numpy trig in the
haversine arithmetic, number-to-string rendering) is abstracted as an
oracle record `Lib`; everything that the repository's own code decides
(control flow, which column feeds which stage, fill values, error
propagation) is embedded from the source.  Python exceptions are
modelled as `Except.error`.
-/

inductive Value where
  | num (q : ℚ)
  | str (s : String)
  | null
deriving DecidableEq, Repr

abbrev Col := List Value

/-- A frame: ordered list of named columns (pandas DataFrame). -/
abbrev Frame := List (String × Col)

/-- `df.get(c)` / `df[c]` column lookup. -/
def getCol : Frame → String → Option Col
  | [], _ => none
  | p :: ps, c => if p.1 = c then some p.2 else getCol ps c

/-- `c in df.columns`. -/
def hasCol (f : Frame) (c : String) : Bool := (getCol f c).isSome

/-- `df[c] = v`: replace an existing column in place, else append at the end
(pandas column-assignment semantics). -/
def setCol (f : Frame) (c : String) (v : Col) : Frame :=
  if hasCol f c then f.map (fun p => if p.1 = c then (c, v) else p)
  else f ++ [(c, v)]

def colNames (f : Frame) : List String := f.map (·.1)

/-- `len(df)`: number of rows, read off the first column. -/
def nrows : Frame → Nat
  | [] => 0
  | p :: _ => p.2.length

/-- Oracles for library (pandas/numpy) behaviour the repository calls into. -/
structure Lib where
  /-- `pd.to_numeric(·, errors="coerce")` on a string cell; `none` = NaN. -/
  parseNum : String → Option ℚ
  /-- `pd.to_datetime(·, errors="coerce")` on one cell, as seconds since the
  Unix epoch; `none` = NaT. -/
  parseTime : Value → Option ℕ
  /-- `.astype(float)` on a string cell; `none` means Python raises. -/
  parseFloat : String → Option ℚ
  /-- `str(·)` rendering of a number, used by `.astype(str)`. -/
  showNum : ℚ → String
  /-- the haversine arithmetic (radians/sin/cos/arcsin) on four parsed floats. -/
  hav : ℚ → ℚ → ℚ → ℚ → ℚ

/-- A fixed trivial oracle, used to evaluate the pipeline on concrete inputs. -/
def lib0 : Lib where
  parseNum := fun _ => none
  parseTime := fun _ => none
  parseFloat := fun _ => none
  showNum := fun _ => ""
  hav := fun _ _ _ _ => 0

/- ## Temporal stage (preprocess.py lines 57-61) -/

/-- Hour-of-day of an epoch second count. -/
def tsHour (t : ℕ) : ℕ := t / 3600 % 24

/-- Day-of-week, Monday = 0 (the epoch, 1970-01-01, was a Thursday). -/
def tsDow (t : ℕ) : ℕ := (t / 86400 + 3) % 7

/-- `df["dow"] >= 5` elementwise on one cell (NaN compares false). -/
def geNum (v : Value) (k : ℚ) : Bool :=
  match v with
  | Value.num q => k ≤ q
  | _ => false

/-- Lines 58-61: `pd.to_datetime(df.get("transaction_time"), errors="coerce")`
then hour/dow/is_weekend.  When the column is absent, `df.get` returns `None`,
`pd.to_datetime` returns the scalar `NaT`, and `.dt` raises `AttributeError`. -/
def timeStage (L : Lib) (f : Frame) : Except String Frame :=
  match getCol f "transaction_time" with
  | none => .error "AttributeError: NaTType object has no attribute dt"
  | some col =>
    let parsed := col.map L.parseTime
    let hourCol : Col := parsed.map (fun o =>
      match o with
      | some t => Value.num (tsHour t)
      | none => Value.num (-1))
    let dowCol : Col := parsed.map (fun o =>
      match o with
      | some t => Value.num (tsDow t)
      | none => Value.num (-1))
    let f1 := setCol f "hour" hourCol
    let f2 := setCol f1 "dow" dowCol
    let wk : Col := ((getCol f2 "dow").getD []).map (fun v =>
      Value.num (if geNum v 5 then 1 else 0))
    .ok (setCol f2 "is_weekend" wk)

/- ## Geo stage (preprocess.py lines 43-53 and 63-66) -/

/-- `.astype(float)` on one cell: numbers pass, NaN stays NaN, a string
either parses or raises `ValueError`. -/
def coerceFloat (L : Lib) (v : Value) : Except String (Option ℚ) :=
  match v with
  | Value.num q => .ok (some q)
  | Value.null => .ok none
  | Value.str s =>
    match L.parseFloat s with
    | some q => .ok (some q)
    | none => .error "ValueError: could not convert string to float"

/-- One haversine output cell: NaN in any input propagates to NaN. -/
def distCell (L : Lib) (a b c d : Option ℚ) : Value :=
  match a, b, c, d with
  | some x, some y, some z, some w => Value.num (L.hav x y z w)
  | _, _, _, _ => Value.null

/-- Lines 63-66: `df["dist_km"] = haversine(df.get("lat"), ...)`.  When any of
the four coordinate columns is absent, `df.get` returns `None` and
`haversine` calls `None.astype(float)`, raising `AttributeError`. -/
def geoStage (L : Lib) (f : Frame) : Except String Frame :=
  match getCol f "lat", getCol f "lon",
        getCol f "merchant_lat", getCol f "merchant_lon" with
  | some la, some lo, some ma, some mo => do
    let la1 ← la.mapM (coerceFloat L)
    let lo1 ← lo.mapM (coerceFloat L)
    let ma1 ← ma.mapM (coerceFloat L)
    let mo1 ← mo.mapM (coerceFloat L)
    let dist : Col := (((la1.zip lo1).zip ma1).zip mo1).map
      (fun x => distCell L x.1.1.1 x.1.1.2 x.1.2 x.2)
    .ok (setCol f "dist_km" dist)
  | _, _, _, _ =>
    .error "AttributeError: NoneType object has no attribute astype"

/- ## Numeric imputation stage (preprocess.py lines 68-82) -/

def numericCols : List String :=
  ["amount", "population_city", "hour", "dow", "is_weekend", "dist_km"]

/-- `pd.to_numeric(·, errors="coerce")` on one cell; `none` = NaN. -/
def toNum (L : Lib) : Value → Option ℚ
  | Value.num q => some q
  | Value.null => none
  | Value.str s => L.parseNum s

/-- The non-NaN entries of the coerced column (`series` minus NaN). -/
def validVals (L : Lib) (col : Col) : List ℚ := col.filterMap (toNum L)

/-- Ascending insertion of one rational. -/
def insertAsc (x : ℚ) : List ℚ → List ℚ
  | [] => [x]
  | y :: ys => if x ≤ y then x :: y :: ys else y :: insertAsc x ys

def sortAsc : List ℚ → List ℚ
  | [] => []
  | x :: xs => insertAsc x (sortAsc xs)

/-- `Series.median()` (NaN already removed): middle of the sorted list, or
the mean of the two middle entries for an even count. -/
def median (xs : List ℚ) : ℚ :=
  let s := sortAsc xs
  if s.length % 2 = 1 then s.getD (s.length / 2) 0
  else (s.getD (s.length / 2 - 1) 0 + s.getD (s.length / 2) 0) / 2

/-- Lines 80-82 for one column: coerce to numeric, compute the batch median
(0.0 when the batch has no valid values), fill NaN with it. -/
def fillColumn (L : Lib) (col : Col) : Col :=
  let m := if validVals L col = [] then 0 else median (validVals L col)
  col.map (fun v => Value.num ((toNum L v).getD m))

/-- Lines 77-82, one loop iteration: synthesize an all-NaN column when
absent, then coerce-and-fill. -/
def fillNumericStep (L : Lib) (f : Frame) (c : String) : Frame :=
  let f1 := if hasCol f c then f else setCol f c (List.replicate (nrows f) Value.null)
  setCol f1 c (fillColumn L ((getCol f1 c).getD []))

/-- Lines 68-82: the numeric imputation loop. -/
def fillNumeric (L : Lib) (f : Frame) : Frame :=
  numericCols.foldl (fillNumericStep L) f

/- ## Categorical stage (preprocess.py lines 84-90) -/

def catCols : List String := ["cat_id", "gender"]

/-- `.astype(str)` on one cell: note NaN renders as the string "nan". -/
def astypeStr (L : Lib) : Value → Value
  | Value.num q => Value.str (L.showNum q)
  | Value.null => Value.str "nan"
  | Value.str s => Value.str s

/-- `.fillna("na")` on one cell. -/
def fillnaNa : Value → Value
  | Value.null => Value.str "na"
  | v => v

/-- Lines 86-90, one loop iteration: absent column becomes all-"na",
present column is string-coerced then null-filled. -/
def fillCatStep (L : Lib) (f : Frame) (c : String) : Frame :=
  if hasCol f c then
    setCol f c ((((getCol f c).getD []).map (astypeStr L)).map fillnaNa)
  else setCol f c (List.replicate (nrows f) (Value.str "na"))

/-- Lines 84-90: the categorical fill loop. -/
def fillCat (L : Lib) (f : Frame) : Frame :=
  catCols.foldl (fillCatStep L) f

/- ## Drop and feature selection (preprocess.py lines 92-102) -/

def dropList : List String :=
  ["lat", "lon", "merchant_lat", "merchant_lon", "transaction_time"]

/-- Line 93: drop the coordinate and timestamp source columns. -/
def dropStage (f : Frame) : Frame :=
  f.filter (fun p => !(dropList.contains p.1))

/-- Lines 96-98, one loop iteration: synthesize a zero-filled column when
the feature is missing. -/
def addMissingStep (g : Frame) (feat : String) : Frame :=
  if hasCol g feat then g
  else setCol g feat (List.replicate (nrows g) (Value.num 0))

/-- Lines 96-98: synthesize a zero-filled column for each missing feature. -/
def addMissing (f : Frame) (fl : List String) : Frame :=
  fl.foldl addMissingStep f

/-- `df[cols]` restricted to the names actually present (line 101). -/
def project (f : Frame) (cols : List String) : Frame :=
  (cols.filter (fun c => hasCol f c)).map (fun c => (c, (getCol f c).getD []))

/-- Lines 95-102: the FeatureSelector tail of `preprocess`. -/
def featureSelect (f : Frame) (fl : List String) : Frame :=
  project (addMissing f fl) ("id" :: fl)

/-- The whole `preprocess(df, feature_list)` (preprocess.py lines 56-102). -/
def preprocess (L : Lib) (f : Frame) (fl : List String) : Except String Frame := do
  let f1 ← timeStage L f
  let f2 ← geoStage L f1
  let f3 := fillNumeric L f2
  let f4 := fillCat L f3
  let f5 := dropStage f4
  pure (featureSelect f5 fl)

/- ## predict.py -/

/-- `load_threshold()` (predict.py lines 34-44).  The file is modelled as
`none` = absent, `some none` = present but unparseable (float() raises),
`some (some v)` = parses to v. -/
def loadThreshold (file : Option (Option ℚ)) : ℚ :=
  match file with
  | some (some v) => v
  | some none => 1/2
  | none => 1/2

/-- `(proba >= thresh).astype(int)` for one row (predict.py line 83). -/
def binaryLabel (p t : ℚ) : ℤ := if t ≤ p then 1 else 0

/-- An estimator: it may expose `feature_importances_`. -/
structure BaseEst where
  featureImportances : Option (List ℚ)
deriving DecidableEq, Repr

/-- The loaded model: a bare estimator, or a Pipeline with `named_steps`. -/
inductive Model where
  | plain (e : BaseEst)
  | pipeline (steps : List (String × BaseEst))
deriving DecidableEq, Repr

/-- Predict.py lines 92-99: `named_steps.get("dummyclassifier",
named_steps[next(iter(named_steps))])`.  The default argument is the FIRST
step; on an empty dict `next` raises and the inner handler yields `None`. -/
def finalEstimator : Model → Option BaseEst
  | Model.plain e => some e
  | Model.pipeline steps =>
    match steps with
    | [] => none
    | s0 :: _ =>
      match steps.lookup "dummyclassifier" with
      | some e => some e
      | none => some s0.2

/-- Descending insertion by score. -/
def insertDesc (x : String × ℚ) : List (String × ℚ) → List (String × ℚ)
  | [] => [x]
  | y :: ys => if y.2 ≤ x.2 then x :: y :: ys else y :: insertDesc x ys

def sortDesc : List (String × ℚ) → List (String × ℚ)
  | [] => []
  | x :: xs => insertDesc x (sortDesc xs)

/-- `series.sort_values(ascending=False).head(5)` (predict.py line 104). -/
def top5 (pairs : List (String × ℚ)) : List (String × ℚ) :=
  (sortDesc pairs).take 5

/-- The body of the importances try-block (predict.py lines 89-106):
`pd.Series(fi, index=feature_list)` raises on a length mismatch. -/
def extractImportancesE (m : Model) (fl : List String) :
    Except String (Option (List (String × ℚ))) :=
  match finalEstimator m with
  | none => .ok none
  | some e =>
    match e.featureImportances with
    | none => .ok none
    | some fi =>
      if fi.length = fl.length then .ok (some (top5 (fl.zip fi)))
      else .error "ValueError: Length of values does not match length of index"

/-- The importances step with an injectable library fault (any exception
raised inside the try-block). -/
def importancesStep (fault : Option String) (m : Model) (fl : List String) :
    Except String (Option (List (String × ℚ))) :=
  match fault with
  | some e => .error e
  | none => extractImportancesE m fl

/-- What `importances.json` ends up holding after the
`try ... except Exception: pass` (lines 88-109): `none` = file not written. -/
def extractImportances (m : Model) (fl : List String) :
    Option (List (String × ℚ)) :=
  match extractImportancesE m fl with
  | .ok o => o
  | .error _ => none

/-- The histogram rendering try-block (lines 112-122), with an injectable
fault standing for any matplotlib failure. -/
def plotStep (fault : Option String) : Except String Unit :=
  match fault with
  | some e => .error e
  | none => .ok ()

/-- `X = df[feature_list]` (line 63): KeyError when a feature is missing. -/
def projectStrict (f : Frame) (cols : List String) : Except String Frame :=
  if cols.all (fun c => hasCol f c) then .ok (project f cols)
  else .error "KeyError"

/-- `df["id"].values if "id" in df.columns else np.arange(len(df))` (line 64). -/
def idsOf (f : Frame) : List Value :=
  match getCol f "id" with
  | some col => col
  | none => (List.range (nrows f)).map (fun i => Value.num i)

/-- The files `main()` produces. -/
structure RunOutputs where
  probSub : List (Value × ℚ)
  binSub : List (Value × ℤ)
  importancesFile : Option (List (String × ℚ))
  plotFile : Bool
deriving DecidableEq, Repr

/-- `main()` of predict.py (lines 47-122), with the model invocation
abstracted to its probability vector `proba` and the two diagnostic
try-blocks carrying injectable faults.  Both submissions are produced
before either diagnostic runs; each diagnostic is caught. -/
def mainRun (df : Frame) (fl : List String) (m : Model) (proba : List ℚ)
    (threshFile : Option (Option ℚ)) (impFault plotFault : Option String) :
    Except String RunOutputs := do
  let _X ← projectStrict df fl
  let ids := idsOf df
  let thresh := loadThreshold threshFile
  let probSub := ids.zip proba
  let binSub := ids.zip (proba.map (fun p => binaryLabel p thresh))
  let imps :=
    match importancesStep impFault m fl with
    | .ok o => o
    | .error _ => none
  let plotOk :=
    match plotStep plotFault with
    | .ok _ => true
    | .error _ => false
  pure { probSub := probSub, binSub := binSub,
         importancesFile := imps, plotFile := plotOk }

/- ## Concrete inputs used by counterexamples and witnesses -/

/-- A frame whose `amount` column has one missing cell among valid values
1, 2, 3 (batch median 2). -/
def dfC1 : Frame := [("amount", [Value.num 1, Value.null, Value.num 2, Value.num 3])]

/-- A frame whose `cat_id` holds a value unseen at train time. -/
def dfC2 : Frame := [("cat_id", [Value.str "electronics"])]

/-- A frame with no `id` column. -/
def dfC3 : Frame := [("x", [Value.num 1])]

/-- A frame with a timestamp column but no coordinate columns. -/
def dfC4 : Frame := [("id", [Value.num 1]), ("transaction_time", [Value.null])]

/-- A frame with all four coordinate columns but no `transaction_time`. -/
def dfC5 : Frame :=
  [("id", [Value.num 1]), ("lat", [Value.num 0]), ("lon", [Value.num 0]),
   ("merchant_lat", [Value.num 0]), ("merchant_lon", [Value.num 0])]

/-- A two-step pipeline whose first step exposes no importances and whose
last step does. -/
def mC8steps : List (String × BaseEst) := [("scaler", ⟨none⟩), ("clf", ⟨some [7, 3]⟩)]

/-- A one-row frame with an id column, for the scoring-run witness. -/
def dfC9 : Frame := [("id", [Value.num 1])]

/- ## Frame access lemmas -/

theorem getCol_map_set (f : Frame) (c : String) (v : Col) (h : hasCol f c = true) :
    getCol (f.map (fun p => if p.1 = c then (c, v) else p)) c = some v := by
  induction f with
  | nil => simp [hasCol, getCol] at h
  | cons p ps ih =>
    by_cases hp : p.1 = c
    · simp [getCol, hp]
    · have h' : hasCol ps c = true := by simpa [hasCol, getCol, hp] using h
      simpa [getCol, hp] using ih h'

theorem getCol_append_new (f : Frame) (c : String) (v : Col) (h : hasCol f c = false) :
    getCol (f ++ [(c, v)]) c = some v := by
  induction f with
  | nil => simp [getCol]
  | cons p ps ih =>
    by_cases hp : p.1 = c
    · simp [hasCol, getCol, hp] at h
    · have h' : hasCol ps c = false := by simpa [hasCol, getCol, hp] using h
      simpa [getCol, hp] using ih h'

theorem getCol_set_self (f : Frame) (c : String) (v : Col) :
    getCol (setCol f c v) c = some v := by
  unfold setCol
  cases h : hasCol f c
  · simp only [h, Bool.false_eq_true, if_false]
    exact getCol_append_new f c v h
  · simp only [h, if_true]
    exact getCol_map_set f c v h

theorem getCol_map_ne (f : Frame) (c d : String) (v : Col) (h : c ≠ d) :
    getCol (f.map (fun p => if p.1 = d then (d, v) else p)) c = getCol f c := by
  induction f with
  | nil => rfl
  | cons p ps ih =>
    by_cases hp : p.1 = d
    · have h1 : ¬ (d = c) := fun e => h e.symm
      have h2 : ¬ (p.1 = c) := by rw [hp]; exact h1
      simp [getCol, hp, h1, h2, ih]
    · by_cases hc : p.1 = c
      · simp [getCol, hp, hc, h]
      · simp [getCol, hp, hc, ih]

theorem getCol_append_ne (f : Frame) (c d : String) (v : Col) (h : c ≠ d) :
    getCol (f ++ [(d, v)]) c = getCol f c := by
  induction f with
  | nil =>
    have hdc : ¬ d = c := fun e => h e.symm
    simp [getCol, hdc]
  | cons p ps ih =>
    by_cases hc : p.1 = c <;> simp [getCol, hc, ih]

theorem getCol_set_ne (f : Frame) (c d : String) (v : Col) (h : c ≠ d) :
    getCol (setCol f d v) c = getCol f c := by
  unfold setCol
  cases hd : hasCol f d
  · simp only [hd, Bool.false_eq_true, if_false]
    exact getCol_append_ne f c d v h
  · simp only [hd, if_true]
    exact getCol_map_ne f c d v h

theorem hasCol_set_self (f : Frame) (c : String) (v : Col) :
    hasCol (setCol f c v) c = true := by
  simp [hasCol, getCol_set_self]

theorem hasCol_set_ne (f : Frame) (c d : String) (v : Col) (h : c ≠ d) :
    hasCol (setCol f d v) c = hasCol f c := by
  simp [hasCol, getCol_set_ne f c d v h]

/- ## Numeric-imputation characterization -/

theorem fillNumericStep_get_ne (L : Lib) (g : Frame) (d c : String) (h : c ≠ d) :
    getCol (fillNumericStep L g d) c = getCol g c := by
  simp only [fillNumericStep]
  rw [getCol_set_ne _ c d _ h]
  split
  · rfl
  · exact getCol_set_ne g c d _ h

theorem fillNumericStep_has_ne (L : Lib) (g : Frame) (d c : String) (h : c ≠ d) :
    hasCol (fillNumericStep L g d) c = hasCol g c := by
  simp [hasCol, fillNumericStep_get_ne L g d c h]

theorem fillNumericStep_get_self (L : Lib) (g : Frame) (c : String) :
    ∃ src, getCol (fillNumericStep L g c) c = some (fillColumn L src) ∧
      (hasCol g c = true → getCol g c = some src) := by
  simp only [fillNumericStep]
  cases hc : hasCol g c
  · refine ⟨List.replicate (nrows g) Value.null, ?_, ?_⟩
    · simp only [hc, Bool.false_eq_true, if_false]
      rw [getCol_set_self, getCol_set_self]
      rfl
    · intro h; simp at h
  · cases hgc : getCol g c with
    | none => simp [hasCol, hgc] at hc
    | some col =>
      refine ⟨col, ?_, fun _ => rfl⟩
      simp [hc, getCol_set_self, hgc]

theorem foldl_fillStep_get_notmem (L : Lib) :
    ∀ (cs : List String) (g : Frame) (c : String), c ∉ cs →
      getCol (cs.foldl (fillNumericStep L) g) c = getCol g c := by
  intro cs
  induction cs with
  | nil => intro g c _; rfl
  | cons a l ih =>
    intro g c h
    rw [List.foldl_cons,
        ih (fillNumericStep L g a) c (fun e => h (List.mem_cons_of_mem a e)),
        fillNumericStep_get_ne L g a c (fun e => h (e ▸ List.mem_cons_self a l))]

theorem foldl_fillStep_char (L : Lib) :
    ∀ (cs : List String) (g : Frame) (c : String), c ∈ cs → cs.Nodup →
      ∃ src, getCol (cs.foldl (fillNumericStep L) g) c = some (fillColumn L src) ∧
        (hasCol g c = true → getCol g c = some src) := by
  intro cs
  induction cs with
  | nil => intro g c h _; cases h
  | cons a l ih =>
    intro g c hmem hnd
    rw [List.foldl_cons]
    rcases List.mem_cons.mp hmem with rfl | hmem'
    · have hl : c ∉ l := (List.nodup_cons.mp hnd).1
      obtain ⟨src, h1, h2⟩ := fillNumericStep_get_self L g c
      exact ⟨src, by rw [foldl_fillStep_get_notmem L l _ c hl]; exact h1, h2⟩
    · have hne : c ≠ a := by
        rintro rfl; exact (List.nodup_cons.mp hnd).1 hmem'
      obtain ⟨src, h1, h2⟩ := ih (fillNumericStep L g a) c hmem' (List.nodup_cons.mp hnd).2
      refine ⟨src, h1, fun hh => ?_⟩
      have h3 := h2 (by rw [fillNumericStep_has_ne L g a c hne]; exact hh)
      rwa [fillNumericStep_get_ne L g a c hne] at h3

theorem fillNumeric_char (L : Lib) (f : Frame) (c : String) (hc : c ∈ numericCols) :
    ∃ src, getCol (fillNumeric L f) c = some (fillColumn L src) ∧
      (hasCol f c = true → getCol f c = some src) :=
  foldl_fillStep_char L numericCols f c hc (by decide)

theorem fillColumn_all_num (L : Lib) (col : Col) :
    ∀ v ∈ fillColumn L col, ∃ q, v = Value.num q := by
  intro v hv
  simp only [fillColumn, List.mem_map] at hv
  obtain ⟨w, _, rfl⟩ := hv
  exact ⟨_, rfl⟩

theorem fillColumn_zero_of_empty (L : Lib) (col : Col) (h : validVals L col = []) :
    ∀ v ∈ fillColumn L col, v = Value.num 0 := by
  intro v hv
  simp only [fillColumn, List.mem_map] at hv
  obtain ⟨w, hw, rfl⟩ := hv
  have hw0 : toNum L w = none := by
    cases htn : toNum L w with
    | none => rfl
    | some q =>
      have hq : q ∈ validVals L col := by
        unfold validVals
        exact List.mem_filterMap.mpr ⟨w, hw, htn⟩
      rw [h] at hq
      cases hq
  rw [hw0, h]
  simp

/- ## Categorical-stage characterization -/

theorem fillCatStep_get_ne (L : Lib) (g : Frame) (d c : String) (h : c ≠ d) :
    getCol (fillCatStep L g d) c = getCol g c := by
  unfold fillCatStep
  split
  · exact getCol_set_ne _ c d _ h
  · exact getCol_set_ne _ c d _ h

theorem fillCat_char (L : Lib) (f : Frame) (h : hasCol f "cat_id" = true) :
    ∃ src, getCol f "cat_id" = some src ∧
      getCol (fillCat L f) "cat_id" =
        some ((src.map (astypeStr L)).map fillnaNa) := by
  cases hgc : getCol f "cat_id" with
  | none => simp [hasCol, hgc] at h
  | some src =>
    refine ⟨src, rfl, ?_⟩
    show getCol (fillCatStep L (fillCatStep L f "cat_id") "gender") "cat_id" = _
    rw [fillCatStep_get_ne L _ "gender" "cat_id" (by decide)]
    simp [fillCatStep, h, hgc, getCol_set_self]

/- ## FeatureSelector characterization -/

theorem hasCol_addMissingStep (g : Frame) (a c : String) :
    hasCol (addMissingStep g a) c = true ↔ (hasCol g c = true ∨ c = a) := by
  unfold addMissingStep
  cases ha : hasCol g a
  · simp only [ha, Bool.false_eq_true, if_false]
    by_cases hca : c = a
    · subst hca
      simp [hasCol_set_self]
    · rw [hasCol_set_ne g c a _ hca]
      simp [hca]
  · simp only [ha, if_true]
    constructor
    · exact Or.inl
    · rintro (hh | rfl)
      · exact hh
      · exact ha

theorem hasCol_addMissing (f : Frame) (fl : List String) (c : String) :
    hasCol (addMissing f fl) c = true ↔ (hasCol f c = true ∨ c ∈ fl) := by
  induction fl generalizing f with
  | nil => simp [addMissing]
  | cons a l ih =>
    have hstep : addMissing f (a :: l) = addMissing (addMissingStep f a) l := rfl
    rw [hstep, ih, hasCol_addMissingStep]
    simp [List.mem_cons, or_assoc]

theorem colNames_project (f : Frame) (cols : List String) :
    colNames (project f cols) = cols.filter (fun c => hasCol f c) := by
  unfold project colNames
  generalize cols.filter (fun c => hasCol f c) = X
  induction X with
  | nil => rfl
  | cons a l ih => simp [ih]

/- ## Claim theorems -/

/-- Claim C1, counterexample.  Under the scenario of the claim (reference
median 42.0 supplied for `amount`, a row with `amount` missing), the code
fills the missing cell with the batch-derived median 2 — `preprocess` takes
no reference medians at all — so the output is not the claimed 42.0. -/
theorem C1_counterexample :
    (getCol (fillNumeric lib0 dfC1) "amount").getD [] =
      [Value.num 1, Value.num 2, Value.num 2, Value.num 3] ∧
    Value.num 2 ≠ Value.num 42 := ⟨by decide, by decide⟩

/-- Claim C1, amended: the imputer has no artifact-driven mode; for every
frame and every configured numeric column that is present, a cell that
coerces to missing comes out as the batch-derived median of the column's
valid values (never an externally supplied reference median). -/
theorem C1_batch_median_fill (L : Lib) (f : Frame) (c : String)
    (hc : c ∈ numericCols) (hhas : hasCol f c = true) (i : ℕ) (v : Value)
    (hcell : ((getCol f c).getD [])[i]? = some v) (hmiss : toNum L v = none)
    (hval : validVals L ((getCol f c).getD []) ≠ []) :
    ∃ col1, getCol (fillNumeric L f) c = some col1 ∧
      col1[i]? = some (Value.num (median (validVals L ((getCol f c).getD [])))) := by
  obtain ⟨src, h1, h2⟩ := fillNumeric_char L f c hc
  have hsrc := h2 hhas
  have hget : (getCol f c).getD [] = src := by rw [hsrc]; rfl
  rw [hget] at hcell hval ⊢
  refine ⟨fillColumn L src, h1, ?_⟩
  simp only [fillColumn, List.getElem?_map, hcell, Option.map_some']
  rw [hmiss]
  simp [hval]

/-- Witness for C1: on `dfC1` the missing `amount` cell (row 1) is filled
with the batch median of the valid values. -/
theorem C1_batch_median_fill_witness :
    ∃ col1, getCol (fillNumeric lib0 dfC1) "amount" = some col1 ∧
      col1[1]? = some (Value.num (median (validVals lib0 ((getCol dfC1 "amount").getD [])))) :=
  C1_batch_median_fill lib0 dfC1 "amount" (by decide) (by decide) 1 Value.null
    (by decide) (by decide) (by decide)

/-- Claim C2, counterexample.  `cat_id = "electronics"` with a rare-map that
does not contain it comes out unchanged as `"electronics"`, not as the
claimed sentinel `"rare"` — no rare-category mapping exists in the code. -/
theorem C2_counterexample :
    getCol (fillCat lib0 dfC2) "cat_id" = some [Value.str "electronics"] ∧
    Value.str "electronics" ≠ Value.str "rare" := ⟨by decide, by decide⟩

/-- Claim C2, amended: the categorical stage performs no rare-category
mapping; for every frame with a `cat_id` column, every string cell passes
through the stage unchanged (train-time maps are never consulted). -/
theorem C2_string_passthrough (L : Lib) (f : Frame)
    (h : hasCol f "cat_id" = true) (i : ℕ) (s : String)
    (hcell : ((getCol f "cat_id").getD [])[i]? = some (Value.str s)) :
    ∃ col1, getCol (fillCat L f) "cat_id" = some col1 ∧
      col1[i]? = some (Value.str s) := by
  obtain ⟨src, hsrc, hout⟩ := fillCat_char L f h
  refine ⟨_, hout, ?_⟩
  rw [hsrc] at hcell
  simp only [Option.getD_some] at hcell
  simp only [List.getElem?_map, hcell, Option.map_some']
  rfl

/-- Witness for C2: the concrete `"electronics"` cell of `dfC2` survives the
categorical stage unchanged. -/
theorem C2_string_passthrough_witness :
    ∃ col1, getCol (fillCat lib0 dfC2) "cat_id" = some col1 ∧
      col1[0]? = some (Value.str "electronics") :=
  C2_string_passthrough lib0 dfC2 (by decide) 0 "electronics" (by decide)

/-- Claim C3, counterexample.  On an input frame without an `id` column the
FeatureSelector tail returns columns `["f"]`, not the claimed
`["id", "f"]`: the id column is silently absent, not synthesized. -/
theorem C3_counterexample :
    colNames (featureSelect dfC3 ["f"]) = ["f"] ∧
    (["f"] : List String) ≠ ["id", "f"] := ⟨by decide, by decide⟩

/-- Claim C3, amended: the FeatureSelector tail returns columns exactly
`["id"] + feature_list` when the input frame has an `id` column (or `"id"`
occurs in the feature list); when `id` is absent the output columns are
exactly `feature_list`, with `id` dropped rather than synthesized. -/
theorem C3_selector_columns (f : Frame) (fl : List String) :
    colNames (featureSelect f fl) =
      (if hasCol f "id" = true ∨ "id" ∈ fl then ["id"] else []) ++ fl := by
  unfold featureSelect
  rw [colNames_project, List.filter_cons]
  have hfl : fl.filter (fun c => hasCol (addMissing f fl) c) = fl :=
    List.filter_eq_self.mpr
      (fun c hcmem => by
        have : hasCol (addMissing f fl) c = true :=
          (hasCol_addMissing f fl c).mpr (Or.inr hcmem)
        simp [this])
  by_cases hid : hasCol f "id" = true ∨ "id" ∈ fl
  · have hidc : hasCol (addMissing f fl) "id" = true :=
      (hasCol_addMissing f fl "id").mpr hid
    simp [hidc, hfl, hid]
  · have hidc : ¬ hasCol (addMissing f fl) "id" = true :=
      fun hh => hid ((hasCol_addMissing f fl "id").mp hh)
    have hidc' : hasCol (addMissing f fl) "id" = false :=
      Bool.not_eq_true _ ▸ (Bool.eq_false_iff.mpr (fun e => hidc e))
    simp [hidc', hfl, hid]

/-- Claim C4 (code bug).  Evaluating `preprocess` on a frame that has a
timestamp column but no coordinate columns: the run raises (`df.get("lat")`
returns `None` and `haversine` calls `None.astype(float)`), instead of
skipping the `dist_km` feature as the spec requires. -/
theorem C4_missing_coordinate_raises :
    preprocess lib0 dfC4 ["amount"] =
      Except.error "AttributeError: NoneType object has no attribute astype" := by
  rfl

/-- Claim C5 (code bug).  Evaluating `preprocess` on a frame without a
`transaction_time` column: `pd.to_datetime(None)` yields the scalar `NaT`
whose `.dt` accessor raises, instead of producing the sentinel features
`hour = -1, dow = -1, is_weekend = 0` as the spec requires for an absent
timestamp column. -/
theorem C5_missing_time_column_raises :
    preprocess lib0 dfC5 ["amount"] =
      Except.error "AttributeError: NaTType object has no attribute dt" := by
  rfl

/-- Claim C6: after the numeric imputation loop, every configured numeric
column exists, every one of its cells is numeric (no nulls survive), and a
column with zero valid values is filled entirely with 0. -/
theorem C6_imputer_no_nulls (L : Lib) (f : Frame) (c : String)
    (hc : c ∈ numericCols) :
    ∃ src, getCol (fillNumeric L f) c = some (fillColumn L src) ∧
      (∀ v ∈ fillColumn L src, ∃ q, v = Value.num q) ∧
      (validVals L src = [] → ∀ v ∈ fillColumn L src, v = Value.num 0) := by
  obtain ⟨src, h1, _⟩ := fillNumeric_char L f c hc
  exact ⟨src, h1, fillColumn_all_num L src,
    fun hempty => fillColumn_zero_of_empty L src hempty⟩

/-- Witness for C6 at the concrete frame `dfC1` and column `amount`. -/
theorem C6_imputer_no_nulls_witness :
    ∃ src, getCol (fillNumeric lib0 dfC1) "amount" = some (fillColumn lib0 src) ∧
      (∀ v ∈ fillColumn lib0 src, ∃ q, v = Value.num q) ∧
      (validVals lib0 src = [] → ∀ v ∈ fillColumn lib0 src, v = Value.num 0) :=
  C6_imputer_no_nulls lib0 dfC1 "amount" (by decide)

/-- Claim C7: the threshold defaults to 0.5 when `threshold.txt` is absent
or unparseable, and each binary label is 1 exactly when the probability is
at least the threshold, 0 otherwise. -/
theorem C7_threshold_default_and_labels :
    loadThreshold none = 1/2 ∧ loadThreshold (some none) = 1/2 ∧
    ∀ p t : ℚ, (t ≤ p → binaryLabel p t = 1) ∧ (p < t → binaryLabel p t = 0) := by
  refine ⟨rfl, rfl, fun p t => ⟨fun h => ?_, fun h => ?_⟩⟩
  · simp [binaryLabel, h]
  · simp [binaryLabel, not_le.mpr h]

/-- Witness for C7: default threshold plus both label branches at concrete
probabilities. -/
theorem C7_threshold_default_and_labels_witness :
    loadThreshold none = 1/2 ∧ binaryLabel 1 0 = 1 ∧ binaryLabel 0 1 = 0 :=
  ⟨C7_threshold_default_and_labels.1,
   (C7_threshold_default_and_labels.2.2 1 0).1 (by norm_num),
   (C7_threshold_default_and_labels.2.2 0 1).2 (by norm_num)⟩

/-- Claim C8 (code bug).  On a two-step pipeline whose steps are
`scaler` (no importances) then `clf` (importances `[7, 3]`), the code
selects `named_steps.get("dummyclassifier", <first step>)` — the FIRST
step — finds no importance capability and writes nothing, even though the
terminal (last) step exposes importances, contrary to the claim and to the
code's own comment about retrieving the final estimator. -/
theorem C8_first_step_not_last :
    extractImportances (Model.pipeline mC8steps) ["f1", "f2"] = none ∧
    finalEstimator (Model.pipeline mC8steps) = some ⟨none⟩ ∧
    mC8steps.getLast?.map (fun p => p.2.featureImportances) = some (some [7, 3]) :=
  ⟨by decide, by decide, by decide⟩

/-- Claim C9: whenever the feature projection succeeds, the scoring run
completes with both the probability and the binary submissions — for every
model (importance-capable or not) and every injected failure in the
importances or plot diagnostics; a diagnostics failure only suppresses its
own output file. -/
theorem C9_diagnostics_nonblocking (df : Frame) (fl : List String) (m : Model)
    (proba : List ℚ) (tf : Option (Option ℚ)) (impFault plotFault : Option String)
    (h : fl.all (fun c => hasCol df c) = true) :
    ∃ out, mainRun df fl m proba tf impFault plotFault = Except.ok out ∧
      out.probSub = (idsOf df).zip proba ∧
      out.binSub = (idsOf df).zip (proba.map (fun p => binaryLabel p (loadThreshold tf))) ∧
      (∀ e, impFault = some e → out.importancesFile = none) := by
  have hp : projectStrict df fl = Except.ok (project df fl) := by
    unfold projectStrict
    rw [if_pos h]
  refine ⟨{ probSub := (idsOf df).zip proba,
            binSub := (idsOf df).zip (proba.map (fun p => binaryLabel p (loadThreshold tf))),
            importancesFile :=
              match importancesStep impFault m fl with
              | Except.ok o => o
              | Except.error _ => none,
            plotFile :=
              match plotStep plotFault with
              | Except.ok _ => true
              | Except.error _ => false }, ?_, rfl, rfl, fun e he => ?_⟩
  · unfold mainRun
    rw [hp]
    rfl
  · subst he
    rfl

/-- Witness for C9: a one-row frame, a model with no importance capability,
and injected faults in both diagnostics still yield both submissions. -/
theorem C9_diagnostics_nonblocking_witness :
    ∃ out, mainRun dfC9 [] (Model.plain ⟨none⟩) [0] none
        (some "ImportancesError") (some "PlotError") = Except.ok out ∧
      out.probSub = (idsOf dfC9).zip [0] ∧
      out.binSub = (idsOf dfC9).zip ([0].map (fun p => binaryLabel p (loadThreshold none))) ∧
      (∀ e, (some "ImportancesError" : Option String) = some e →
        out.importancesFile = none) :=
  C9_diagnostics_nonblocking dfC9 [] (Model.plain ⟨none⟩) [0] none
    (some "ImportancesError") (some "PlotError") rfl

/-- Claim C10: `load_threshold` performs no range validation — a parsed
value is returned unchanged — and an out-of-range threshold forces a
constant label over in-range probabilities: all 1 when the threshold is
at most 0, all 0 when it exceeds 1. -/
theorem C10_threshold_unvalidated :
    (∀ v : ℚ, loadThreshold (some (some v)) = v) ∧
    (∀ v p : ℚ, v ≤ 0 → 0 ≤ p → binaryLabel p v = 1) ∧
    (∀ v p : ℚ, 1 < v → p ≤ 1 → binaryLabel p v = 0) := by
  refine ⟨fun v => rfl, fun v p hv hp => ?_, fun v p hv hp => ?_⟩
  · simp [binaryLabel, hv.trans hp]
  · have hnp : ¬ v ≤ p := not_le.mpr (lt_of_le_of_lt hp hv)
    simp [binaryLabel, hnp]

/-- Witness for C10: the out-of-range thresholds -1 and 2 pass through
unchanged and force constant labels. -/
theorem C10_threshold_unvalidated_witness :
    loadThreshold (some (some (-1))) = -1 ∧
    binaryLabel 0 (-1) = 1 ∧ binaryLabel 1 2 = 0 :=
  ⟨C10_threshold_unvalidated.1 (-1),
   C10_threshold_unvalidated.2.1 (-1) 0 (by norm_num) (by norm_num),
   C10_threshold_unvalidated.2.2 2 1 (by norm_num) (by norm_num)⟩
